import Mathlib

/-!
Verification development for the `emoji_logger` repository
(`src/emoji_logger/main.py`): a console/file logging facade that decorates
severity-leveled records with emoji markers, caller metadata and
duplicate-message suppression.

The Python module is shallowly embedded below: pure functions become Lean
functions, the mutable `DuplicateFilter` state and the filesystem become
explicit state values that are threaded through the operations, and the
fallible constructor returns `Except`.  Ambient runtime data that Python
reads implicitly (the call stack, `traceback.format_exc()`, the record
timestamp) is passed as explicit parameters.
-/

namespace EmojiLogger

/- Numeric severity constants of the Python `logging` module. -/
namespace logging

def DEBUG : Int := 10

def INFO : Int := 20

def WARNING : Int := 30

def ERROR : Int := 40

def CRITICAL : Int := 50

/-- Embeds `logging.getLevelName`: known numeric levels map to their names,
any other value renders as `Level <n>`. -/
def getLevelName (n : Int) : String :=
  if n = 50 then "CRITICAL"
  else if n = 40 then "ERROR"
  else if n = 30 then "WARNING"
  else if n = 20 then "INFO"
  else if n = 10 then "DEBUG"
  else if n = 0 then "NOTSET"
  else "Level " ++ toString n

end logging

/-- Embeds Python `str.upper()` character by character (the level names
involved are ASCII, where this agrees with Python). -/
def pyUpper (s : String) : String := ⟨s.data.map Char.toUpper⟩

/-- Embeds Python `str.startswith(pre)`. -/
def pyStartsWith (s pre : String) : Bool := pre.data.isPrefixOf s.data

/-- Embeds the `LogConfig` dataclass: three display strings with the
defaults `'=' * 50`, `'-' * 50` and `"%Y-%m-%d %H:%M:%S"`. -/
structure LogConfig where
  border_line : String := String.mk (List.replicate 50 '=')
  sep_line : String := String.mk (List.replicate 50 '-')
  date_format : String := "%Y-%m-%d %H:%M:%S"
deriving DecidableEq, Repr

/-- Embeds the `LogEmoji` enum as a name-to-glyph table; `none` models a
`KeyError` on `LogEmoji[level]`. -/
def LogEmoji.lookup (name : String) : Option String :=
  if name = "DEBUG" then some "🛠️"
  else if name = "INFO" then some "📚"
  else if name = "WARNING" then some "🔥"
  else if name = "ERROR" then some "⛔️"
  else if name = "CRITICAL" then some "❌"
  else if name = "DEFAULT" then some "❓"
  else none

/-- The glyph of `LogEmoji.DEFAULT`. -/
def LogEmoji.DEFAULT : String := "❓"

/-- Embeds `DuplicateFilter`: one mutable last-seen slot.  Python stores
`hash((record.levelname, record.getMessage()))`; the hash is modelled
injectively by the pair itself, and the initial `None` by `none` (in Python
an int hash never equals `None`, and here `some k ≠ none` always holds). -/
structure DuplicateFilter where
  last_log : Option (String × String)
deriving DecidableEq, Repr

/-- Embeds `DuplicateFilter.__init__`: the slot starts as `None`. -/
def DuplicateFilter.init : DuplicateFilter := { last_log := none }

/-- Embeds `DuplicateFilter.filter`: accept iff the key of the record
differs from the stored slot; the slot is updated only on accept. -/
def DuplicateFilter.filter (f : DuplicateFilter) (k : String × String) :
    Bool × DuplicateFilter :=
  if some k ≠ f.last_log then (true, { last_log := some k })
  else (false, f)

/-- Runs a record through one filter repeatedly over a list of record keys,
returning the accept flags in order and the final filter state. -/
def DuplicateFilter.run (f : DuplicateFilter) :
    List (String × String) → List Bool × DuplicateFilter
  | [] => ([], f)
  | k :: ks =>
    let step := f.filter k
    let rest := step.2.run ks
    (step.1 :: rest.1, rest.2)

/-- Embeds `logging.Filterer.filter` over a list of attached
`DuplicateFilter`s: filters run in order, the record is rejected at the
first filter that returns false (filters after it are not consulted), and
state mutations of the filters already consulted are kept. -/
def runFilters : List DuplicateFilter → (String × String) →
    Bool × List DuplicateFilter
  | [], _ => (true, [])
  | f :: fs, k =>
    let step := f.filter k
    if step.1 then
      let rest := runFilters fs k
      (rest.1, step.2 :: rest.2)
    else (false, step.2 :: fs)

/-- A message payload passed to the public leveled calls: either a plain
string or an exception object whose `str()` is the stored string. -/
inductive Payload where
  | str (s : String)
  | exc (s : String)
deriving DecidableEq, Repr

/-- Stringification `str(msg)` / `f"{msg}"` of a payload. -/
def Payload.toStr : Payload → String
  | .str s => s
  | .exc s => s

namespace Logger

/-- Embeds `Logger._get_level`.  The warning that an unknown name triggers
through `self.logger.warning` is modelled as the optional second component
(the exact message logged); numeric levels pass through unchanged. -/
def _get_level : Int ⊕ String → Int × Option String
  | Sum.inl n => (n, none)
  | Sum.inr s =>
    let lv := pyUpper s
    if lv = "DEBUG" then (logging.DEBUG, none)
    else if lv = "INFO" then (logging.INFO, none)
    else if lv = "WARNING" then (logging.WARNING, none)
    else if lv = "ERROR" then (logging.ERROR, none)
    else if lv = "CRITICAL" then (logging.CRITICAL, none)
    else (logging.INFO, some ("Invalid log level: " ++ lv ++ ". Using INFO level."))

/-- Embeds `Logger._get_emoji`: a numeric level is first resolved through
`logging.getLevelName`, then the name is looked up in the `LogEmoji` table;
a `KeyError` (lookup miss) yields the default glyph. -/
def _get_emoji : Int ⊕ String → String
  | Sum.inl n =>
    match LogEmoji.lookup (logging.getLevelName n) with
    | some e => e
    | none => LogEmoji.DEFAULT
  | Sum.inr s =>
    match LogEmoji.lookup s with
    | some e => e
    | none => LogEmoji.DEFAULT

/-- Embeds `Logger.handle_exception`.  `tb` is the ambient value of
`traceback.format_exc()`; with no active exception Python returns a string
starting with `"NoneType: None"`.  When a traceback is present it is
appended after a newline, an exception payload being stringified first. -/
def handle_exception (msg : Payload) (tb : String) : String :=
  if ¬ pyStartsWith tb "NoneType: None" then msg.toStr ++ "\n" ++ tb
  else msg.toStr

/-- Embeds `Logger.handle_msg`.  `caller` is the ambient
`inspect.stack()[2].function`; a top-level `"<module>"` frame renders as
`"main"`; for ERROR and CRITICAL the payload first passes through
`handle_exception`. -/
def handle_msg (level : Int) (caller : String) (msg : Payload) (tb : String) :
    String :=
  let caller2 := if caller = "<module>" then "main" else caller
  let msg2 :=
    if level = logging.ERROR ∨ level = logging.CRITICAL then
      handle_exception msg tb
    else msg.toStr
  _get_emoji (Sum.inl level) ++ " | " ++ caller2 ++ " | " ++ msg2

end Logger

/-- The kind of an attached sink: the console stream or a file at a path
(paths are modelled as lists of components). -/
inductive HandlerKind where
  | console
  | file (path : List String)
deriving DecidableEq, Repr

/-- An attached sink: its kind, the `LogConfig` captured by the
`CustomFormatter` set on it, and its own handler-level filters (the source
never attaches filters to handlers, only to the logger, so this list stays
empty in every state the code constructs). -/
structure Handler where
  kind : HandlerKind
  fmtConfig : LogConfig
  filters : List DuplicateFilter
deriving DecidableEq, Repr

/-- The underlying `logging.Logger` object: name, effective numeric level,
logger-level filters and attached handlers. -/
structure LoggerCore where
  name : String
  level : Int
  filters : List DuplicateFilter
  handlers : List Handler
deriving DecidableEq, Repr

/-- Ambient per-record rendering data that Python derives at format time:
the timestamp string and the caller attribution resolved by the formatter
stack walk (shared by all sinks, which walk the same stack). -/
structure RenderCtx where
  asctime : String
  filename : String
  funcName : String
  lineno : Int
deriving DecidableEq, Repr

/-- The text a `CustomFormatter` built by `Logger._get_formatter cfg`
produces for a record: the format template
`border\n%(asctime)s | %(levelname)s | %(name)s\n%(filename)s |
%(funcName)s | %(lineno)d\nsep\n%(message)s\nborder` with the record
fields substituted. -/
def renderRecord (cfg : LogConfig) (asctime levelname name filename
    funcName : String) (lineno : Int) (message : String) : String :=
  cfg.border_line ++ "\n" ++
  asctime ++ " | " ++ levelname ++ " | " ++ name ++ "\n" ++
  filename ++ " | " ++ funcName ++ " | " ++ toString lineno ++ "\n" ++
  cfg.sep_line ++ "\n" ++
  message ++ "\n" ++
  cfg.border_line

/-- One rendered output event: which sink wrote and the rendered text. -/
structure Output where
  kind : HandlerKind
  text : String
deriving DecidableEq, Repr

/-- Embeds `logging.Handler.handle` for a handler of this program: run the
handler's own filters (always the empty list here), and on acceptance emit
the text rendered by the handler's formatter. -/
def Handler.handle (h : Handler) (ctx : RenderCtx) (name levelname
    msg : String) : Option Output × Handler :=
  let step := runFilters h.filters (levelname, msg)
  if step.1 then
    (some ⟨h.kind, renderRecord h.fmtConfig ctx.asctime levelname name
        ctx.filename ctx.funcName ctx.lineno msg⟩,
     { h with filters := step.2 })
  else (none, { h with filters := step.2 })

/-- Embeds `logging.Logger.callHandlers`: every attached handler sees the
record, in attachment order. -/
def callHandlersAux : List Handler → RenderCtx → String → String → String →
    List Handler × List Output
  | [], _, _, _, _ => ([], [])
  | h :: hs, ctx, nm, ln, m =>
    let step := h.handle ctx nm ln m
    let rest := callHandlersAux hs ctx nm ln m
    (step.2 :: rest.1,
     (match step.1 with | some o => [o] | none => []) ++ rest.2)

/-- Embeds `logging.Logger.handle`: the record first passes the
logger-level filters (shared by all sinks); only if they all accept is it
dispatched to the handlers. -/
def LoggerCore.handle (lg : LoggerCore) (ctx : RenderCtx) (level : Int)
    (msg : String) : LoggerCore × List Output :=
  let ln := logging.getLevelName level
  let fstep := runFilters lg.filters (ln, msg)
  if fstep.1 then
    let hstep := callHandlersAux lg.handlers ctx lg.name ln msg
    ({ lg with filters := fstep.2, handlers := hstep.1 }, hstep.2)
  else ({ lg with filters := fstep.2 }, [])

/-- Embeds a leveled emission call (`logging.Logger.debug` etc.): the
record is created and handled only when `isEnabledFor(level)` holds, i.e.
when the level is at or above the logger's effective level. -/
def LoggerCore.leveledCall (lg : LoggerCore) (ctx : RenderCtx) (level : Int)
    (msg : String) : LoggerCore × List Output :=
  if lg.level ≤ level then lg.handle ctx level msg else (lg, [])

/-- An explicit filesystem: the set of existing directories and an
association of file paths to contents (the first binding for a path is the
current one). -/
structure FS where
  dirs : List (List String)
  files : List (List String × String)
deriving DecidableEq, Repr

/-- Directory creation (`Path.mkdir`). -/
def FS.mkdir (fs : FS) (p : List String) : FS :=
  { fs with dirs := p :: fs.dirs }

/-- Opening a file in append mode (`FileHandler` with `delay=False` opens
the stream at construction): the file is created empty if absent. -/
def FS.openAppend (fs : FS) (p : List String) : FS :=
  match fs.files.lookup p with
  | some _ => fs
  | none => { fs with files := (p, "") :: fs.files }

/-- Appending text to a file. -/
def FS.writeAppend (fs : FS) (p : List String) (s : String) : FS :=
  match fs.files.lookup p with
  | some c => { fs with files := (p, c ++ s) :: fs.files }
  | none => { fs with files := (p, s) :: fs.files }

/-- Embeds the `Logger` facade object: the wrapped logger, the stored
configuration and the optional log path. -/
structure Logger where
  core : LoggerCore
  config : LogConfig
  log_path : Option (List String)
deriving DecidableEq, Repr

namespace Logger

/-- Embeds `Logger._get_formatter`: the built `CustomFormatter` is modelled
by the `LogConfig` baked into its format template.  The Python parameter
has default value `LogConfig()`. -/
def _get_formatter (config : LogConfig) : LogConfig := config

/-- Embeds `Logger._set_stream_handler`: attach a console handler whose
formatter is built by `_get_formatter()` called with NO argument (hence
the default `LogConfig()`), and add a fresh `DuplicateFilter` to the
logger itself. -/
def _set_stream_handler (l : Logger) : Logger :=
  let console_handler : Handler :=
    { kind := HandlerKind.console, fmtConfig := _get_formatter {},
      filters := [] }
  { l with core :=
      { l.core with
          handlers := l.core.handlers ++ [console_handler],
          filters := l.core.filters ++ [DuplicateFilter.init] } }

/-- Embeds `Logger._set_file_handler`: create the parent directory when
absent, open the file (append mode, so it exists afterwards), attach a
file handler whose formatter is again `_get_formatter()` with NO argument,
and add another fresh `DuplicateFilter` to the logger itself. -/
def _set_file_handler (l : Logger) (path : List String) (fs : FS) :
    Logger × FS :=
  let parent := path.dropLast
  let fs1 := if fs.dirs.contains parent then fs else fs.mkdir parent
  let fs2 := fs1.openAppend path
  let file_handler : Handler :=
    { kind := HandlerKind.file path, fmtConfig := _get_formatter {},
      filters := [] }
  ({ l with core :=
      { l.core with
          handlers := l.core.handlers ++ [file_handler],
          filters := l.core.filters ++ [DuplicateFilter.init] } },
   fs2)

/-- Embeds `Logger.__init__`: resolve the level, store `config or
LogConfig()`, always attach the stream handler, and when `is_save` is true
require `log_path` (raising `ValueError` otherwise, modelled as
`Except.error`) before attaching the file handler.  The logger is modelled
as fresh (registry sharing across constructions is outside the claims). -/
def init (name : String) (level : Int ⊕ String) (is_save : Bool)
    (log_path : Option (List String)) (config : Option LogConfig)
    (fs : FS) : Except String (Logger × FS) :=
  let lv := (_get_level level).1
  let l0 : Logger :=
    { core := { name := name, level := lv, filters := [], handlers := [] },
      config := config.getD {},
      log_path := none }
  let l1 := l0._set_stream_handler
  if is_save then
    match log_path with
    | none => Except.error "log_path is required when is_save is True"
    | some p =>
      let step := ({ l1 with log_path := some p })._set_file_handler p fs
      Except.ok step
  else Except.ok (l1, fs)

/-- A public leveled call at a given numeric level: build the decorated
message with `handle_msg`, run it through the emission pipeline, and write
each file-sink output (plus the `"\n"` terminator the handler appends) to
the filesystem. -/
def logCall (l : Logger) (fs : FS) (ctx : RenderCtx) (level : Int)
    (caller : String) (msg : Payload) (tb : String) :
    Logger × FS × List Output :=
  let rendered := handle_msg level caller msg tb
  let step := l.core.leveledCall ctx level rendered
  let fs2 := step.2.foldl (fun acc o =>
    match o.kind with
    | HandlerKind.file p => acc.writeAppend p (o.text ++ "\n")
    | HandlerKind.console => acc) fs
  ({ l with core := step.1 }, fs2, step.2)

/-- Embeds `Logger.debug`. -/
def debug (l : Logger) (fs : FS) (ctx : RenderCtx) (caller : String)
    (msg : Payload) (tb : String) : Logger × FS × List Output :=
  l.logCall fs ctx logging.DEBUG caller msg tb

/-- Embeds `Logger.info`. -/
def info (l : Logger) (fs : FS) (ctx : RenderCtx) (caller : String)
    (msg : Payload) (tb : String) : Logger × FS × List Output :=
  l.logCall fs ctx logging.INFO caller msg tb

/-- Embeds `Logger.warning`. -/
def warning (l : Logger) (fs : FS) (ctx : RenderCtx) (caller : String)
    (msg : Payload) (tb : String) : Logger × FS × List Output :=
  l.logCall fs ctx logging.WARNING caller msg tb

/-- Embeds `Logger.error`. -/
def error (l : Logger) (fs : FS) (ctx : RenderCtx) (caller : String)
    (msg : Payload) (tb : String) : Logger × FS × List Output :=
  l.logCall fs ctx logging.ERROR caller msg tb

/-- Embeds `Logger.critical`. -/
def critical (l : Logger) (fs : FS) (ctx : RenderCtx) (caller : String)
    (msg : Payload) (tb : String) : Logger × FS × List Output :=
  l.logCall fs ctx logging.CRITICAL caller msg tb

/-- Runs a sequence of leveled calls on the same logger and filesystem and
returns the levels whose call actually produced output on some sink. -/
def runCalls : Logger → FS → RenderCtx → String → Payload → String →
    List Int → List Int
  | _, _, _, _, _, _, [] => []
  | l, fs, ctx, c, m, tb, lv :: lvs =>
    let step := l.logCall fs ctx lv c m tb
    (if step.2.2.isEmpty then [] else [lv]) ++
      runCalls step.1 step.2.1 ctx c m tb lvs

end Logger

/-- The `__name__` of the module the formatter lives in. -/
def logger_module : String := "emoji_logger.main"

/-- One entry of `inspect.stack()`: the frame's module `__name__`, source
file path, function name and line number. -/
structure FrameInfo where
  module : String
  filename : String
  function : String
  lineno : Int
deriving DecidableEq, Repr

/-- The skip test of the formatter's stack walk: frames of the logger's
own module, of the `logging` infrastructure or of `pytest` are skipped. -/
def frameSkipped (m : String) : Bool :=
  m = logger_module || pyStartsWith m "logging" || pyStartsWith m "pytest"

/-- Embeds `os.path.basename` for POSIX paths. -/
def basename (p : String) : String := (p.splitOn "/").getLastD p

/-- The loop of `CustomFormatter.format`: drop `start` frames, then take
the first frame that is not skipped (`none` when the loop runs out). -/
def callerSearch (stack : List FrameInfo) (start : Nat) : Option FrameInfo :=
  (stack.drop start).find? (fun f => ! frameSkipped f.module)

/-- A log record as the formatter sees it: attribution fields plus the
`stacklevel` hint (`record.__dict__.get("stacklevel", 2)`). -/
structure Record where
  name : String
  levelname : String
  asctime : String
  filename : String
  funcName : String
  lineno : Int
  message : String
  stacklevel : Nat := 2
deriving DecidableEq, Repr

/-- The text `logging.Formatter.format` produces for a record under a
given configuration. -/
def Record.render (r : Record) (cfg : LogConfig) : String :=
  renderRecord cfg r.asctime r.levelname r.name r.filename r.funcName
    r.lineno r.message

/-- Embeds `CustomFormatter.format`.  The base-class text is computed
first, from the record's current attribution.  `stackRes` is the ambient
result of `inspect.stack()`: `Except.error e` models the defensive
catch-all case where the stack walk raises (then the record is left
unmodified and the diagnostic `print` fires), `Except.ok stack` the normal
case where the first non-skipped frame overwrites the attribution.  The
result is (record after the call, diagnostic printed, returned string). -/
def CustomFormatter.format (cfg : LogConfig)
    (stackRes : Except String (List FrameInfo)) (r : Record) :
    Record × Option String × String :=
  let original_format := r.render cfg
  match stackRes with
  | Except.error e =>
    (r, some ("Error getting caller info: " ++ e), original_format)
  | Except.ok stack =>
    match callerSearch stack r.stacklevel with
    | some fi =>
      ({ r with
          filename := basename fi.filename,
          funcName := fi.function,
          lineno := fi.lineno },
       none, original_format)
    | none => (r, none, original_format)

/-- Substring containment on strings, stated through the character data. -/
def strContains (s t : String) : Prop :=
  ∃ pre post : List Char, s.data = pre ++ t.data ++ post

/-- String concatenation is associative. -/
theorem string_append_assoc (a b c : String) : a ++ b ++ c = a ++ (b ++ c) :=
  String.ext (by simp [String.data_append])

/-- Every string contains itself. -/
theorem strContains_self (t : String) : strContains t t :=
  ⟨[], [], by simp⟩

/-- Containment is preserved by prepending text. -/
theorem strContains_append_left (u s t : String) (h : strContains s t) :
    strContains (u ++ s) t := by
  obtain ⟨pre, post, hd⟩ := h
  exact ⟨u.data ++ pre, post, by simp [String.data_append, hd]⟩

/-- Containment is preserved by appending text. -/
theorem strContains_append_right (s t u : String) (h : strContains s t) :
    strContains (s ++ u) t := by
  obtain ⟨pre, post, hd⟩ := h
  exact ⟨pre, post ++ u.data, by simp [String.data_append, hd]⟩

/-- A fresh duplicate-filter slot rejects every record after it has seen
the same key: from state `some k`, a run of copies of `k` accepts none. -/
theorem dupFilter_run_replicate_same (k : String × String) (m : ℕ) :
    ((DuplicateFilter.mk (some k)).run (List.replicate m k)).1 =
      List.replicate m false := by
  induction m with
  | zero => simp [DuplicateFilter.run]
  | succ m ih =>
    simp [List.replicate_succ, DuplicateFilter.run, DuplicateFilter.filter, ih]

/-- C10: immediately after construction the `DuplicateFilter` slot is the
sentinel `None`, so the first record is always accepted whatever its level
name and message; the slot is updated only when a record is accepted; and
a run of `n ≥ 2` consecutive identical records is emitted exactly once. -/
theorem duplicateFilter_init_sentinel :
    DuplicateFilter.init.last_log = none ∧
    (∀ levelname msg : String,
      (DuplicateFilter.init.filter (levelname, msg)).1 = true) ∧
    (∀ (f : DuplicateFilter) (k : String × String),
      (f.filter k).1 = false → (f.filter k).2 = f) ∧
    (∀ (k : String × String) (n : ℕ), 2 ≤ n →
      (DuplicateFilter.init.run (List.replicate n k)).1.count true = 1) := by
  refine ⟨rfl, ?_, ?_, ?_⟩
  · intro levelname msg
    simp [DuplicateFilter.init, DuplicateFilter.filter]
  · intro f k h
    simp only [DuplicateFilter.filter] at h ⊢
    split at h
    · simp_all
    · simp_all [DuplicateFilter.filter]
  · intro k n hn
    obtain ⟨m, rfl⟩ : ∃ m, n = m + 1 := ⟨n - 1, by omega⟩
    simp [List.replicate_succ, DuplicateFilter.run, DuplicateFilter.init,
      DuplicateFilter.filter, dupFilter_run_replicate_same, List.count_replicate]

/-- Witness for `duplicateFilter_init_sentinel` at a concrete input. -/
theorem duplicateFilter_init_sentinel_witness :
    ((DuplicateFilter.init.filter (("INFO", "m"))).1 = true) ∧
    ((DuplicateFilter.init.run
        (List.replicate 3 ("INFO", "m"))).1.count true = 1) :=
  ⟨duplicateFilter_init_sentinel.2.1 "INFO" "m",
   duplicateFilter_init_sentinel.2.2.2 ("INFO", "m") 3 (by decide)⟩

/-- C3: a record is accepted by `DuplicateFilter.filter` exactly when its
(level name, message) key differs from the slot left by the last accepted
record; hence two consecutive identical records emit once, while the same
record separated by a different one is emitted every time (no sliding
window). -/
theorem duplicate_filter_immediate_repetition :
    (∀ (f : DuplicateFilter) (k : String × String),
      (f.filter k).1 = true ↔ some k ≠ f.last_log) ∧
    (∀ k : String × String,
      (DuplicateFilter.init.run [k, k]).1 = [true, false]) ∧
    (∀ k k' : String × String, k ≠ k' →
      (DuplicateFilter.init.run [k, k', k]).1 = [true, true, true]) := by
  refine ⟨?_, ?_, ?_⟩
  · intro f k
    simp only [DuplicateFilter.filter]
    split
    · simp_all
    · simp_all
  · intro k
    simp [DuplicateFilter.run, DuplicateFilter.init, DuplicateFilter.filter]
  · intro k k' h
    simp [DuplicateFilter.run, DuplicateFilter.init, DuplicateFilter.filter,
      h, Ne.symm h]

/-- Witness for `duplicate_filter_immediate_repetition`: concrete keys. -/
theorem duplicate_filter_immediate_repetition_witness :
    (DuplicateFilter.init.run
        [("INFO", "a"), ("INFO", "b"), ("INFO", "a")]).1 =
      [true, true, true] :=
  duplicate_filter_immediate_repetition.2.2 ("INFO", "a") ("INFO", "b")
    (by decide)

/-- C5: level resolution maps case-insensitively known names to their
numeric constants, resolves an unknown name to INFO while emitting a
warning through the same logger (the function is total, so no error is
raised), and passes numeric inputs through unchanged. -/
theorem level_resolution :
    (∀ s : String,
      (pyUpper s = "DEBUG" →
        Logger._get_level (Sum.inr s) = (logging.DEBUG, none)) ∧
      (pyUpper s = "INFO" →
        Logger._get_level (Sum.inr s) = (logging.INFO, none)) ∧
      (pyUpper s = "WARNING" →
        Logger._get_level (Sum.inr s) = (logging.WARNING, none)) ∧
      (pyUpper s = "ERROR" →
        Logger._get_level (Sum.inr s) = (logging.ERROR, none)) ∧
      (pyUpper s = "CRITICAL" →
        Logger._get_level (Sum.inr s) = (logging.CRITICAL, none))) ∧
    (∀ s : String,
      pyUpper s ∉
        (["DEBUG", "INFO", "WARNING", "ERROR", "CRITICAL"] : List String) →
      Logger._get_level (Sum.inr s) =
        (logging.INFO,
         some ("Invalid log level: " ++ pyUpper s ++ ". Using INFO level."))) ∧
    (∀ n : Int, Logger._get_level (Sum.inl n) = (n, none)) := by
  refine ⟨?_, ?_, fun n => rfl⟩
  · intro s
    refine ⟨?_, ?_, ?_, ?_, ?_⟩ <;> intro h <;> simp [Logger._get_level, h]
  · intro s h
    simp only [List.mem_cons, List.mem_singleton, not_or] at h
    obtain ⟨h1, h2, h3, h4, h5⟩ := h
    simp [Logger._get_level, h1, h2, h3, h4, h5]

/-- Witness for `level_resolution`: a lowercase known name, an unknown
name, and a numeric level. -/
theorem level_resolution_witness :
    (Logger._get_level (Sum.inr "debug") = (logging.DEBUG, none)) ∧
    (Logger._get_level (Sum.inr "TRACE") =
      (logging.INFO,
       some "Invalid log level: TRACE. Using INFO level.")) ∧
    (Logger._get_level (Sum.inl 35) = (35, none)) :=
  ⟨(level_resolution.1 "debug").1 (by decide),
   by
    have h := level_resolution.2.1 "TRACE" (by decide)
    simpa using h,
   level_resolution.2.2 35⟩

/-- C6: for ERROR and CRITICAL, when the ambient traceback text does not
start with the no-exception sentinel it is appended to the message (the
payload stringified first, also when it is an exception object); with the
sentinel present, and for every other severity, the rendered message is
the bare stringified payload with no traceback. -/
theorem exception_decoration :
    (∀ (caller : String) (msg : Payload) (tb : String),
      ¬ pyStartsWith tb "NoneType: None" →
        (Logger.handle_msg logging.ERROR caller msg tb =
          "⛔️" ++ " | " ++ (if caller = "<module>" then "main" else caller)
            ++ " | " ++ (msg.toStr ++ "\n" ++ tb)) ∧
        (Logger.handle_msg logging.CRITICAL caller msg tb =
          "❌" ++ " | " ++ (if caller = "<module>" then "main" else caller)
            ++ " | " ++ (msg.toStr ++ "\n" ++ tb))) ∧
    (∀ (caller : String) (msg : Payload) (tb : String),
      pyStartsWith tb "NoneType: None" →
        (Logger.handle_msg logging.ERROR caller msg tb =
          "⛔️" ++ " | " ++ (if caller = "<module>" then "main" else caller)
            ++ " | " ++ msg.toStr) ∧
        (Logger.handle_msg logging.CRITICAL caller msg tb =
          "❌" ++ " | " ++ (if caller = "<module>" then "main" else caller)
            ++ " | " ++ msg.toStr)) ∧
    (∀ (level : Int) (caller : String) (msg : Payload) (tb : String),
      level ≠ logging.ERROR → level ≠ logging.CRITICAL →
        Logger.handle_msg level caller msg tb =
          Logger._get_emoji (Sum.inl level) ++ " | " ++
            (if caller = "<module>" then "main" else caller) ++ " | " ++
            msg.toStr) := by
  refine ⟨?_, ?_, ?_⟩
  · intro caller msg tb h
    constructor <;>
      simp [Logger.handle_msg, Logger.handle_exception, h, logging.ERROR,
        logging.CRITICAL, Logger._get_emoji, logging.getLevelName,
        LogEmoji.lookup]
  · intro caller msg tb h
    constructor <;>
      simp [Logger.handle_msg, Logger.handle_exception, h, logging.ERROR,
        logging.CRITICAL, Logger._get_emoji, logging.getLevelName,
        LogEmoji.lookup]
  · intro level caller msg tb h1 h2
    simp [Logger.handle_msg, h1, h2]

/-- Witness for `exception_decoration`: an active traceback, the
no-exception sentinel, and an INFO-level call. -/
theorem exception_decoration_witness :
    (Logger.handle_msg logging.ERROR "f" (Payload.exc "boom")
        "Traceback (most recent call last):" =
      "⛔️" ++ " | " ++ "f" ++ " | " ++ ("boom" ++ "\n" ++
        "Traceback (most recent call last):")) ∧
    (Logger.handle_msg logging.ERROR "f" (Payload.str "oops")
        "NoneType: None\n" =
      "⛔️" ++ " | " ++ "f" ++ " | " ++ "oops") ∧
    (Logger.handle_msg logging.INFO "f" (Payload.str "hi")
        "Traceback (most recent call last):" =
      Logger._get_emoji (Sum.inl logging.INFO) ++ " | " ++ "f" ++ " | "
        ++ "hi") := by
  refine ⟨?_, ?_, ?_⟩
  · have h := (exception_decoration.1 "f" (Payload.exc "boom")
      "Traceback (most recent call last):" (by decide)).1
    simpa using h
  · have h := (exception_decoration.2.1 "f" (Payload.str "oops")
      "NoneType: None\n" (by decide)).1
    simpa using h
  · have h := exception_decoration.2.2 logging.INFO "f" (Payload.str "hi")
      "Traceback (most recent call last):" (by decide) (by decide)
    simpa using h

/-- C9: when the formatter's stack walk raises, `CustomFormatter.format`
leaves the record's filename/funcName/lineno attribution unmodified,
prints a diagnostic, and still returns the base-class formatted text;
moreover the returned text never depends on the walk at all (it is
computed from the record before the walk runs). -/
theorem formatter_defensive_catch :
    (∀ (cfg : LogConfig) (r : Record) (e : String),
      CustomFormatter.format cfg (Except.error e) r =
        (r, some ("Error getting caller info: " ++ e), r.render cfg)) ∧
    (∀ (cfg : LogConfig) (r : Record)
        (stackRes : Except String (List FrameInfo)),
      (CustomFormatter.format cfg stackRes r).2.2 = r.render cfg) := by
  refine ⟨fun cfg r e => rfl, ?_⟩
  intro cfg r stackRes
  cases stackRes with
  | error e => rfl
  | ok stack =>
    simp only [CustomFormatter.format]
    cases callerSearch stack r.stacklevel <;> rfl

/-- A rendered record contains whatever its message part contains. -/
theorem renderRecord_contains (cfg : LogConfig) (a ln nm f fn : String)
    (li : Int) (msg t : String) (h : strContains msg t) :
    strContains (renderRecord cfg a ln nm f fn li msg) t := by
  unfold renderRecord
  exact strContains_append_right _ _ _
    (strContains_append_right _ _ _ (strContains_append_left _ _ _ h))

/-- The decorated message of an INFO call contains the raw payload text. -/
theorem handle_msg_info_contains (caller m tb : String) :
    strContains (Logger.handle_msg logging.INFO caller (Payload.str m) tb)
      m := by
  simp [Logger.handle_msg, logging.INFO, logging.ERROR, logging.CRITICAL,
    Payload.toStr]
  exact strContains_append_left _ _ _ (strContains_self m)

/-- C4: constructing with `is_save = True` and no `log_path` fails the
construction with `ValueError`; with a path on a fresh filesystem the
parent directory exists after construction, the (empty) log file exists as
soon as the file sink attaches, and after the first emission the file
content is the bordered record, which contains the logged message text. -/
theorem file_sink_construction :
    (∀ (name : String) (level : Int ⊕ String) (config : Option LogConfig)
        (fs : FS),
      Logger.init name level true none config fs =
        Except.error "log_path is required when is_save is True") ∧
    (∀ (name : String) (p : List String) (ctx : RenderCtx)
        (caller m tb : String),
      ∃ (l : Logger) (fs2 : FS),
        Logger.init name (Sum.inl 10) true (some p) none ⟨[], []⟩ =
            Except.ok (l, fs2) ∧
        fs2.dirs.contains p.dropLast = true ∧
        fs2.files.lookup p = some "" ∧
        (Logger.info l fs2 ctx caller (Payload.str m) tb).2.1.files.lookup p
            = some (renderRecord {} ctx.asctime "INFO" name ctx.filename
                ctx.funcName ctx.lineno
                (Logger.handle_msg logging.INFO caller (Payload.str m) tb)
              ++ "\n") ∧
        strContains
          (renderRecord {} ctx.asctime "INFO" name ctx.filename ctx.funcName
              ctx.lineno
              (Logger.handle_msg logging.INFO caller (Payload.str m) tb)
            ++ "\n") m) := by
  constructor
  · intro name level config fs
    rfl
  · intro name p ctx caller m tb
    refine ⟨_, _, rfl, ?_, ?_, ?_, ?_⟩
    · simp [Logger._set_file_handler, FS.mkdir, FS.openAppend]
    · simp [Logger._set_file_handler, FS.mkdir, FS.openAppend]
    · simp [Logger.info, Logger.logCall, Logger.init,
        Logger._set_stream_handler, Logger._set_file_handler,
        Logger._get_level, Logger._get_formatter, FS.mkdir, FS.openAppend,
        FS.writeAppend, LoggerCore.leveledCall, LoggerCore.handle,
        callHandlersAux, Handler.handle, runFilters, DuplicateFilter.init,
        DuplicateFilter.filter, logging.getLevelName, logging.DEBUG,
        logging.INFO]
    · exact strContains_append_right _ _ _
        (renderRecord_contains _ _ _ _ _ _ _ _ _
          (handle_msg_info_contains caller m tb))

/-- C7: each public leveled call forwards the `handle_msg`-decorated
string to the emission call at its own severity; the decorated string is
`<emoji> | <caller> | <payload>`, with a `"<module>"` frame rendered as
`"main"`; the emoji is an exact lookup in the fixed table and every miss
(unknown names as well as custom numeric levels) yields the default
glyph. -/
theorem message_assembly :
    (∀ (l : Logger) (fs : FS) (ctx : RenderCtx) (caller : String)
        (msg : Payload) (tb : String),
      Logger.debug l fs ctx caller msg tb =
          Logger.logCall l fs ctx logging.DEBUG caller msg tb ∧
      Logger.info l fs ctx caller msg tb =
          Logger.logCall l fs ctx logging.INFO caller msg tb ∧
      Logger.warning l fs ctx caller msg tb =
          Logger.logCall l fs ctx logging.WARNING caller msg tb ∧
      Logger.error l fs ctx caller msg tb =
          Logger.logCall l fs ctx logging.ERROR caller msg tb ∧
      Logger.critical l fs ctx caller msg tb =
          Logger.logCall l fs ctx logging.CRITICAL caller msg tb) ∧
    (∀ (caller : String) (msg : Payload) (tb : String),
      Logger.handle_msg logging.DEBUG caller msg tb =
        "🛠️" ++ " | " ++ (if caller = "<module>" then "main" else caller)
          ++ " | " ++ msg.toStr ∧
      Logger.handle_msg logging.INFO caller msg tb =
        "📚" ++ " | " ++ (if caller = "<module>" then "main" else caller)
          ++ " | " ++ msg.toStr ∧
      Logger.handle_msg logging.WARNING caller msg tb =
        "🔥" ++ " | " ++ (if caller = "<module>" then "main" else caller)
          ++ " | " ++ msg.toStr) ∧
    (∀ s : String, LogEmoji.lookup s = none →
      Logger._get_emoji (Sum.inr s) = "❓") ∧
    (Logger._get_emoji (Sum.inl 25) = "❓") ∧
    (Logger.handle_msg logging.INFO "<module>" (Payload.str "x")
        "NoneType: None\n" = "📚 | main | x") := by
  refine ⟨?_, ?_, ?_, by decide, by decide⟩
  · intro l fs ctx caller msg tb
    exact ⟨rfl, rfl, rfl, rfl, rfl⟩
  · intro caller msg tb
    refine ⟨?_, ?_, ?_⟩ <;>
      simp [Logger.handle_msg, Logger._get_emoji, logging.getLevelName,
        LogEmoji.lookup, logging.DEBUG, logging.INFO, logging.WARNING,
        logging.ERROR, logging.CRITICAL]
  · intro s h
    simp [Logger._get_emoji, h, LogEmoji.DEFAULT]

/-- Witness for `message_assembly`: the unregistered name "TRACE" misses
the table and yields the default glyph. -/
theorem message_assembly_witness :
    Logger._get_emoji (Sum.inr "TRACE") = "❓" :=
  message_assembly.2.2.1 "TRACE" (by decide)

/-- C8: for each of the five severities as the constructed minimum level,
invoking all five leveled calls on the same logger emits exactly the calls
at or above that level, for every message payload. -/
theorem level_threshold_gating :
    ∀ L ∈ ([10, 20, 30, 40, 50] : List Int),
      ∀ (name caller m tb : String) (ctx : RenderCtx),
        ∃ l : Logger,
          Logger.init name (Sum.inl L) false none none ⟨[], []⟩ =
              Except.ok (l, ⟨[], []⟩) ∧
          Logger.runCalls l ⟨[], []⟩ ctx caller (Payload.str m) tb
              [10, 20, 30, 40, 50] =
            ([10, 20, 30, 40, 50] : List Int).filter
              (fun x => decide (L ≤ x)) := by
  intro L hL name caller m tb ctx
  fin_cases hL <;>
    refine ⟨_, rfl, ?_⟩ <;>
      simp [Logger.runCalls, Logger.logCall, Logger.init,
        Logger._set_stream_handler, Logger._get_level, Logger._get_formatter,
        LoggerCore.leveledCall, LoggerCore.handle, callHandlersAux,
        Handler.handle, runFilters, DuplicateFilter.init,
        DuplicateFilter.filter, Logger.handle_msg, Logger.handle_exception,
        Logger._get_emoji, logging.getLevelName, LogEmoji.lookup,
        logging.DEBUG, logging.INFO, logging.WARNING, logging.ERROR,
        logging.CRITICAL]

/-- Witness for `level_threshold_gating` at minimum level WARNING. -/
theorem level_threshold_gating_witness :
    ∃ l : Logger,
      Logger.init "t" (Sum.inl 30) false none none ⟨[], []⟩ =
          Except.ok (l, ⟨[], []⟩) ∧
      Logger.runCalls l ⟨[], []⟩ ⟨"a", "f", "g", 1⟩ "c" (Payload.str "m")
          "NoneType: None\n" [10, 20, 30, 40, 50] =
        ([10, 20, 30, 40, 50] : List Int).filter
          (fun x => decide ((30 : Int) ≤ x)) :=
  level_threshold_gating 30 (by decide) "t" "c" "m" "NoneType: None\n"
    ⟨"a", "f", "g", 1⟩

set_option maxRecDepth 4000 in
/-- C1 evidence: the custom configuration is stored verbatim on the
instance, but the attached sink's formatter carries the DEFAULT
configuration (both `_set_stream_handler` and `_set_file_handler` call
`_get_formatter()` with no argument), so the rendered record uses the
50-equals default border, not the custom 30-star one. -/
theorem custom_config_stored_but_not_rendered :
    ∃ (l : Logger) (fs2 : FS),
      Logger.init "test_custom" (Sum.inl 10) false none
          (some { border_line := String.mk (List.replicate 30 '*'),
                  sep_line := String.mk (List.replicate 30 '-'),
                  date_format := "%Y-%m-%d" }) ⟨[], []⟩ =
          Except.ok (l, fs2) ∧
      l.config = { border_line := String.mk (List.replicate 30 '*'),
                   sep_line := String.mk (List.replicate 30 '-'),
                   date_format := "%Y-%m-%d" } ∧
      l.core.handlers.map Handler.fmtConfig = [{}] ∧
      ((Logger.info l fs2 ⟨"2025-01-01", "t.py", "f", 1⟩ "caller"
          (Payload.str "hello") "NoneType: None\n").2.2.map Output.text =
        [renderRecord {} "2025-01-01" "INFO" "test_custom" "t.py" "f" 1
          "📚 | caller | hello"]) ∧
      pyStartsWith
        (renderRecord {} "2025-01-01" "INFO" "test_custom" "t.py" "f" 1
          "📚 | caller | hello")
        (String.mk (List.replicate 50 '=')) = true ∧
      pyStartsWith
        (renderRecord {} "2025-01-01" "INFO" "test_custom" "t.py" "f" 1
          "📚 | caller | hello")
        (String.mk (List.replicate 30 '*')) = false := by
  refine ⟨_, _, rfl, ?_, ?_, ?_, ?_, ?_⟩ <;> decide

/-- C2 counterexample: after constructing with both sinks, the handlers
hold NO filters at all — both `DuplicateFilter`s are attached to the
logger itself — so the claim that each sink holds its own last-seen slot
is false for this concrete logger. -/
theorem per_sink_slot_refuted :
    ∃ (l : Logger) (fs2 : FS),
      Logger.init "test" (Sum.inl 10) true (some ["logs", "app.log"]) none
          ⟨[], []⟩ = Except.ok (l, fs2) ∧
      l.core.handlers.length = 2 ∧
      l.core.handlers.map Handler.filters = [[], []] ∧
      l.core.filters = [DuplicateFilter.init, DuplicateFilter.init] := by
  refine ⟨_, _, rfl, ?_, ?_, ?_⟩ <;> decide

/-- C2 amended: duplicate-suppression state is a pair of
`DuplicateFilter`s on the logger itself, one added per sink-attachment
call; handlers carry no filters, and the accept/drop decision over
(severity name, rendered message) is made once at the logger level and
applies to all sinks jointly: a dropped duplicate produces no output on
either the console or the file sink. -/
theorem duplicate_state_on_logger :
    ∀ (name caller m tb : String) (p : List String) (ctx : RenderCtx),
      ∃ (l : Logger) (fs2 : FS),
        Logger.init name (Sum.inl 10) true (some p) none ⟨[], []⟩ =
            Except.ok (l, fs2) ∧
        l.core.filters.length = 2 ∧
        l.core.handlers.map Handler.filters = [[], []] ∧
        ((Logger.info l fs2 ctx caller (Payload.str m) tb).2.2.map
            Output.kind = [HandlerKind.console, HandlerKind.file p]) ∧
        ((Logger.info (Logger.info l fs2 ctx caller (Payload.str m) tb).1
            (Logger.info l fs2 ctx caller (Payload.str m) tb).2.1 ctx caller
            (Payload.str m) tb).2.2 = []) := by
  intro name caller m tb p ctx
  refine ⟨_, _, rfl, ?_, ?_, ?_, ?_⟩ <;>
    simp [Logger.info, Logger.logCall, Logger.init,
      Logger._set_stream_handler, Logger._set_file_handler,
      Logger._get_level, Logger._get_formatter, FS.mkdir, FS.openAppend,
      FS.writeAppend, LoggerCore.leveledCall, LoggerCore.handle,
      callHandlersAux, Handler.handle, runFilters, DuplicateFilter.init,
      DuplicateFilter.filter, logging.getLevelName, logging.DEBUG,
      logging.INFO]

end EmojiLogger
